import Mathlib

/-!
Shallow embedding of the 5G-ERA client orchestration layer
(era_5g_client/client.py, era_5g_client/client_base.py,
era_5g_client/dataclasses.py), together with theorems settling the
claims about its specification.

Conventions of the embedding:
* Python functions that perform HTTP calls take the transport outcome
  (the parsed JSON body, or the exception the transport raised) as an
  explicit argument.
* A Python function that can raise returns `Except PyExc α`; exceptions
  that are raised and caught inside the very function they originate in
  are collapsed into the handler's outcome, exactly as the source does.
* Machine state mutated by a method is passed and returned explicitly.
-/

/-- JSON values as produced by `response.json()` on a middleware reply.
JSON numbers are modelled as integers; every value the source inspects
on the claimed paths is a string, an integer, a list or an object. -/
inductive JsonVal where
  | str (s : String)
  | num (n : Int)
  | jbool (b : Bool)
  | null
  | arr (elems : List JsonVal)
  | obj (fields : List (String × JsonVal))

/-- Key lookup in a parsed JSON object, i.e. Python dict indexing /
the `in` test. `none` corresponds to a missing key (a `KeyError` on
indexing, falsy `in`). -/
def lookupField : List (String × JsonVal) → String → Option JsonVal
  | [], _ => none
  | (k, v) :: rest, key => if k = key then some v else lookupField rest key

/-- Python `str(...)` applied to a JSON value, as used by
`str(response["ActionPlanId"])` and by f-string interpolation. The
rendering of containers is abstracted; the source never inspects it. -/
def pyStr : JsonVal → String
  | .str s => s
  | .num n => toString n
  | .jbool true => "True"
  | .jbool false => "False"
  | .null => "None"
  | .arr _ => "list(...)"
  | .obj _ => "dict(...)"

/-- Python `==` between a JSON value and an integer literal, as used by
`response["statusCode"] == 500`. In Python `True == 1` holds, hence the
boolean case. -/
def jsonEqInt (v : JsonVal) (n : Int) : Bool :=
  match v with
  | .num m => m = n
  | .jbool b => (if b then (1 : Int) else 0) = n
  | _ => false

/-- Exceptions the `requests` transport can raise: `requests.HTTPError`
(a status-derived error, the only kind the source catches in
`gateway_login`) and connection-level errors such as
`requests.ConnectionError`, which are not subclasses of `HTTPError`. -/
inductive NetError where
  | httpError (statusCode : Nat)
  | connectionError (msg : String)
deriving DecidableEq

/-- Modelled from the spec: era_5g_client/exceptions.py is not under
src/; only its importers are. Following the error taxonomy of spec
paragraph 7 (AuthenticationFailed, PlanRequestFailed, ResourceNotReady,
ConnectFailed, InitializeFailed, CleanupFailed are listed as distinct
kinds), the exception classes `FailedToConnect` (constructor
`failedToConnect`, playing the AuthenticationFailed / PlanRequestFailed
/ ConnectFailed / CleanupFailed roles in the source), `NetAppNotReady`
(`netAppNotReady`, the ResourceNotReady role) and `FailedToInitialize`
(`failedToInit`, the InitializeFailed role) are modelled as distinct
constructors, none a subclass of another. `attributeError` is the
Python builtin `AttributeError`; `netError` is an uncaught transport
exception propagating unwrapped. -/
inductive PyExc where
  | failedToConnect (msg : String)
  | netAppNotReady (msg : String)
  | failedToInit (msg : String)
  | attributeError (name : String)
  | netError (e : NetError)
deriving DecidableEq

/-- Boolean test for the `FailedToConnect` exception class. -/
def isFailedToConnect : PyExc → Bool
  | .failedToConnect _ => true
  | _ => false

/-- Dataclass `MiddlewareInfo` of era_5g_client/dataclasses.py: its
declared fields are `address`, `user_id` and `password` only. -/
structure MiddlewareInfo where
  address : String
  user_id : String
  password : String

/-- Attribute read on a `MiddlewareInfo` instance as constructed by the
generated dataclass `__init__`: exactly the declared fields are present
in the instance dictionary; any other attribute read raises
`AttributeError` (modelled as `none`). -/
def MiddlewareInfo.getattr (m : MiddlewareInfo) : String → Option String
  | "address" => some m.address
  | "user_id" => some m.user_id
  | "password" => some m.password
  | _ => none

/-- NetAppClient.connect_to_middleware (client.py lines 79 to 99). The
method stores `middleware_info` and then evaluates
`self.middleware_info.uri.rstrip("/")`: the read of the `uri`
attribute happens first, and the try block around `gateway_login`
catches only `FailedToConnect`, not `AttributeError`. The returned
boolean records whether `gateway_login` was reached (the body of the
reachable-login branch is abstracted, since for a `MiddlewareInfo`
built from its declared fields the `uri` read already fails). -/
def connect_to_middleware (m : MiddlewareInfo) : Bool × Except PyExc Unit :=
  match m.getattr "uri" with
  | none => (false, .error (.attributeError "uri"))
  | some _ => (true, .ok ())

/-- NetAppClient.gateway_login (client.py lines 220 to 238), applied to
the transport outcome of the Login POST: on a parsed dict body it
checks for an `errors` key, then reads `token` (a `KeyError` is caught
and wrapped), then rejects a non-string or empty token; a
`requests.HTTPError` from the transport is caught and wrapped into
`FailedToConnect`, while any other transport exception is not named in
an except clause and propagates. -/
def gateway_login (resp : Except NetError (List (String × JsonVal))) : Except PyExc String :=
  match resp with
  | .error (.httpError sc) =>
      .error (.failedToConnect
        ("Could not login to the middleware gateway, status code: " ++ toString sc))
  | .error e => .error (.netError e)
  | .ok response =>
      match lookupField response "errors" with
      | some errs => .error (.failedToConnect (pyStr errs))
      | none =>
        match lookupField response "token" with
        | none => .error (.failedToConnect
            "Could not login to the middleware gateway, the response does not contain token")
        | some (.str t) =>
            if t.isEmpty then .error (.failedToConnect "Invalid token.") else .ok t
        | some _ => .error (.failedToConnect "Invalid token.")

/-- Reading `str(response["ActionPlanId"])` under the `except KeyError`
handler of gateway_get_plan. -/
def planIdOf (fields : List (String × JsonVal)) : Except PyExc String :=
  match lookupField fields "ActionPlanId" with
  | some v => .ok (pyStr v)
  | none => .error (.failedToConnect "Could not get the plan: ActionPlanId")

/-- NetAppClient.gateway_get_plan (client.py lines 240 to 266), applied
to the transport outcome of the Task/Plan POST. A non-dict body raises
`FailedToConnect "Invalid response."`; a dict carrying a `statusCode`
key equal to 500 or equal to 400 (and only those two values) raises
`FailedToConnect` with the interpolated message (a missing `message`
key is a `KeyError`, caught and wrapped); otherwise the `ActionPlanId`
field is returned, its absence being a `KeyError`, caught and wrapped.
No transport exception is named in an except clause (only `KeyError`
is), so transport errors propagate unwrapped. -/
def gateway_get_plan (resp : Except NetError JsonVal) : Except PyExc String :=
  match resp with
  | .error e => .error (.netError e)
  | .ok response =>
    match response with
    | .obj fields =>
      match lookupField fields "statusCode" with
      | some sc =>
        if jsonEqInt sc 500 || jsonEqInt sc 400 then
          match lookupField fields "message" with
          | some m => .error (.failedToConnect ("response " ++ pyStr sc ++ ": " ++ pyStr m))
          | none => .error (.failedToConnect "Could not get the plan: message")
        else planIdOf fields
      | none => planIdOf fields
    | _ => .error (.failedToConnect "Invalid response.")

/-- Outcome of one `requests.delete` call: a delivered HTTP response
(with its `ok` flag and status code), a raised `requests.HTTPError`, or
a raised connection-level error. -/
inductive HttpOutcome where
  | resp (ok : Bool) (status : Nat)
  | httpErr (status : Nat)
  | connErr (msg : String)

/-- Boolean test that the transport delivered an actual HTTP response
(of any status) rather than raising. -/
def isResp : HttpOutcome → Bool
  | .resp _ _ => true
  | _ => false

/-- The fields of NetAppClient state that delete_all_resources reads:
`token`, `action_plan_id` and `middleware_info` (client.py lines 73 to
77 initialise all three to None). -/
structure OrchState where
  token : Option String
  action_plan_id : Option String
  middleware_info : Option MiddlewareInfo

/-- NetAppClient.delete_all_resources (client.py lines 268 to 285).
With no token or no plan id it returns at once; with no
middleware_info the guarded request is skipped; a delivered response
only triggers a print (its status is never raised on); a
`requests.HTTPError` is caught and re-raised as `FailedToConnect`; any
other transport error is uncaught. The method never mutates the state,
so the unchanged state is returned alongside the outcome. -/
def delete_all_resources (st : OrchState) (transport : HttpOutcome) :
    OrchState × Except PyExc Unit :=
  match st.token, st.action_plan_id with
  | none, _ => (st, .ok ())
  | some _, none => (st, .ok ())
  | some _, some _ =>
    match st.middleware_info with
    | none => (st, .ok ())
    | some _ =>
      match transport with
      | .resp _ _ => (st, .ok ())
      | .httpErr _ => (st, .error (.failedToConnect
          "Error, could not get delete the resource, revisit the log files for more details."))
      | .connErr m => (st, .error (.netError (.connectionError m)))

/-- Modelled from the spec: era_5g_client/middleware_resource_checker.py
is not under src/. Per spec paragraph 4.2 the monitor exposes a
non-blocking snapshot `isReady` of Readiness State == Ready and caches
the runtime endpoint URL; the source reads `resource_checker.is_ready()`
and `resource_checker.url`. Only that interface snapshot is modelled. -/
structure CheckerState where
  is_ready : Bool
  url : String

/-- Default of the NETAPP_PORT environment variable (client.py line 19). -/
def NETAPP_PORT : Nat := 5896

/-- Dataclass `NetAppLocation` of era_5g_client/dataclasses.py. -/
structure NetAppLocation where
  address : String
  port : Nat

/-- Outcome of the guard prefix of NetAppClient.register: either one of
the two `NetAppNotReady` raises, or control proceeds into
`super().register` (the handshake). -/
inductive GuardResult where
  | raisedNotReady (msg : String)
  | proceeded
deriving DecidableEq

/-- NetAppClient.register guards (client.py lines 186 to 193): an absent
resource checker raises `NetAppNotReady("Not connected to the
middleware.")`, a checker that is not ready raises
`NetAppNotReady("Not ready.")`, and only otherwise is the inherited
register (the handshake) reached. -/
def client_register (checker : Option CheckerState) : GuardResult :=
  match checker with
  | none => .raisedNotReady "Not connected to the middleware."
  | some c => if c.is_ready then .proceeded else .raisedNotReady "Not ready."

/-- NetAppClient.load_netapp_uri (client.py lines 215 to 218): unless a
checker is present and ready it raises the bare `NetAppNotReady` class
(modelled with an empty message); otherwise it yields
`NetAppLocation(str(checker.url), NETAPP_PORT)`. -/
def load_netapp_uri (checker : Option CheckerState) : Except PyExc NetAppLocation :=
  match checker with
  | some c =>
      if c.is_ready then .ok { address := c.url, port := NETAPP_PORT }
      else .error (.netAppNotReady "")
  | none => .error (.netAppNotReady "")

/-- Modelled from the spec: the `ControlCmdType` enum lives in the
external era_5g_interface package, specified at its interface boundary
in spec paragraph 6; the source constructs only the INIT member on the
registration path. -/
inductive ControlCmdType where
  | INIT

/-- Shape of `ControlCommand(ControlCmdType.INIT, clear_queue=False,
data=args)` as constructed at client_base.py line 160; the `data` field
carries the caller-supplied parameter dict. -/
structure ControlCommand where
  cmd_type : ControlCmdType
  clear_queue : Bool
  data : Option (List (String × JsonVal))

/-- Result of the physical connect loop of NetAppClientBase.register:
`connected n s` means the loop broke out after `n` physical attempts
having slept `s` one-second sleeps; `failed n` means `FailedToConnect`
was raised after `n` attempts; `running n` means the supplied finite
prefix of attempt outcomes was exhausted with the loop still retrying
(the real loop continues forever). -/
inductive ConnectResult where
  | connected (attempts : Nat) (sleeps : Nat)
  | failed (attempts : Nat)
  | running (attempts : Nat)
deriving DecidableEq

/-- The `while True` connect loop of NetAppClientBase.register
(client_base.py lines 140 to 155). The environment supplies, per
physical attempt, whether `self._sio.connect` succeeded and the value
`time.time()` observed while handling a failure of that attempt;
`start` is the `start_time` captured before the loop. A failed attempt
raises `FailedToConnect` when `not wait_until_available or
(wait_timeout > 0 and start_time + wait_timeout < time.time())`, and
otherwise sleeps one second and retries. The accumulator counts the
attempts already consumed. -/
def connectLoop (wait_until_available : Bool) (wait_timeout : Int) (start : Int) :
    List (Bool × Int) → Nat → ConnectResult
  | [], n => .running n
  | (succ, t) :: rest, n =>
    if succ then .connected (n + 1) n
    else if !wait_until_available || (decide (0 < wait_timeout) && decide (start + wait_timeout < t)) then
      .failed (n + 1)
    else connectLoop wait_until_available wait_timeout start rest (n + 1)

/-- Overall result of NetAppClientBase.register: `done sent res` records
the control commands sent over the websocket and the outcome;
`connecting n` means the connect-attempt oracle was exhausted while the
loop was still retrying. -/
inductive RegisterResult where
  | done (sent : List ControlCommand) (res : Except PyExc Unit)
  | connecting (attempts : Nat)

/-- NetAppClientBase.register (client_base.py lines 109 to 164): run the
connect loop; on a raised `ConnectionError` past the retry policy wrap
it into `FailedToConnect` (the message carries the repr of the socketio
exception, abstracted here); once connected, build the single INIT
`ControlCommand` with the caller args, send it via send_control_command
(whose correlated result the environment supplies as `initRes`), and
raise `FailedToInitialize` carrying the returned message when the
success flag is false. -/
def base_register (wait_until_available : Bool) (wait_timeout : Int) (start : Int)
    (conn : List (Bool × Int)) (args : Option (List (String × JsonVal)))
    (initRes : Bool × String) : RegisterResult :=
  match connectLoop wait_until_available wait_timeout start conn 0 with
  | .running n => .connecting n
  | .failed _ => .done [] (.error (.failedToConnect "ConnectionError"))
  | .connected _ _ =>
    let command : ControlCommand := { cmd_type := .INIT, clear_queue := false, data := args }
    if initRes.1 then .done [command] (.ok ())
    else .done [command]
      (.error (.failedToInit ("Failed to initialize the network application: " ++ initRes.2)))

/-- The run modes of client.py lines 22 to 28. -/
inductive RunTaskMode where
  | DO_NOTHING
  | WAIT
  | WAIT_AND_REGISTER
deriving DecidableEq

/-- Externally visible operations performed by NetAppClient.run_task, in
source order: the Task/Plan request, construction and start of the
MiddlewareResourceChecker, the blocking readiness wait, the endpoint
retrieval load_netapp_uri, the register call, and the compensating
delete_all_resources. -/
inductive RunEvent where
  | getPlan
  | startChecker
  | waitReady
  | loadUri
  | registerCall
  | deleteResources
deriving DecidableEq

/-- Outcomes the environment supplies for each stage run_task invokes:
the result of gateway_get_plan, of
resource_checker.wait_until_resource_ready (via wait_until_netapp_ready),
of load_netapp_uri, of self.register, and of delete_all_resources. -/
structure StageOutcomes where
  planOutcome : Except PyExc String
  waitOutcome : Except PyExc Unit
  loadUriOutcome : Except PyExc Unit
  registerOutcome : Except PyExc Unit
  deleteOutcome : Except PyExc Unit

/-- The try block of NetAppClient.run_task (client.py lines 133 to 155):
obtain the plan id (an empty or falsy id raises `FailedToConnect`),
construct and start the checker, and in the WAIT and WAIT_AND_REGISTER
modes wait for readiness and load the NetApp URI — after a normal
return of load_netapp_uri the `if not self.netapp_location` branch is
unreachable, a freshly constructed NetAppLocation being truthy — then
in WAIT_AND_REGISTER mode call register. Returns the event trace and
the outcome of the block. -/
def tryBody (mode : RunTaskMode) (o : StageOutcomes) : List RunEvent × Except PyExc Unit :=
  match o.planOutcome with
  | .error e => ([.getPlan], .error e)
  | .ok pid =>
    if pid.isEmpty then
      ([.getPlan], .error (.failedToConnect "Failed to obtain action plan id..."))
    else
      if mode = RunTaskMode.WAIT ∨ mode = RunTaskMode.WAIT_AND_REGISTER then
        match o.waitOutcome with
        | .error e => ([.getPlan, .startChecker, .waitReady], .error e)
        | .ok _ =>
          match o.loadUriOutcome with
          | .error e => ([.getPlan, .startChecker, .waitReady, .loadUri], .error e)
          | .ok _ =>
            if mode = RunTaskMode.WAIT_AND_REGISTER then
              match o.registerOutcome with
              | .error e =>
                  ([.getPlan, .startChecker, .waitReady, .loadUri, .registerCall], .error e)
              | .ok _ =>
                  ([.getPlan, .startChecker, .waitReady, .loadUri, .registerCall], .ok ())
            else ([.getPlan, .startChecker, .waitReady, .loadUri], .ok ())
      else ([.getPlan, .startChecker], .ok ())

/-- The exception classes named in the except clause of run_task
(client.py line 156): `except (FailedToConnect, NetAppNotReady)`. -/
def isCaught : PyExc → Bool
  | .failedToConnect _ => true
  | .netAppNotReady _ => true
  | _ => false

/-- NetAppClient.run_task (client.py lines 132 to 159): run the try
block; an exception of a class named in the except clause triggers
`self.delete_all_resources()` followed by the bare `raise` — and when
delete_all_resources itself raises, that exception leaves the except
block in place of the original one; an exception of any other class
propagates directly. -/
def run_task (mode : RunTaskMode) (o : StageOutcomes) : List RunEvent × Except PyExc Unit :=
  match tryBody mode o with
  | (tr, .ok _) => (tr, .ok ())
  | (tr, .error e) =>
    if isCaught e then
      match o.deleteOutcome with
      | .ok _ => (tr ++ [.deleteResources], .error e)
      | .error cleanupErr => (tr ++ [.deleteResources], .error cleanupErr)
    else (tr, .error e)

/-- Decidable equality for `Except`, used to evaluate closed outcomes. -/
instance instDecEqExcept {ε α : Type} [DecidableEq ε] [DecidableEq α] :
    DecidableEq (Except ε α) := fun a b =>
  match a, b with
  | .ok x, .ok y =>
      if h : x = y then isTrue (by rw [h])
      else isFalse (by intro hh; cases hh; exact h rfl)
  | .error x, .error y =>
      if h : x = y then isTrue (by rw [h])
      else isFalse (by intro hh; cases hh; exact h rfl)
  | .ok _, .error _ => isFalse (by intro hh; cases hh)
  | .error _, .ok _ => isFalse (by intro hh; cases hh)

/-- C10: for every MiddlewareInfo value (fields address, user_id and
password only), connect_to_middleware reads the undefined `uri`
attribute, so the access raises AttributeError before any login request
is attempted: gateway_login is never reached. -/
theorem connect_to_middleware_never_reaches_login (m : MiddlewareInfo) :
    connect_to_middleware m = (false, Except.error (PyExc.attributeError "uri")) := by
  rfl

/-- C9: whenever the resource-readiness checker is absent or not ready,
NetAppClient.register raises NetAppNotReady without proceeding to the
handshake, and load_netapp_uri raises NetAppNotReady without yielding an
endpoint. -/
theorem readiness_guards_block (checker : Option CheckerState)
    (h : ∀ c, checker = some c → c.is_ready = false) :
    (∃ m, client_register checker = GuardResult.raisedNotReady m) ∧
    client_register checker ≠ GuardResult.proceeded ∧
    load_netapp_uri checker = Except.error (PyExc.netAppNotReady "") := by
  cases checker with
  | none =>
      refine ⟨⟨"Not connected to the middleware.", rfl⟩, ?_, rfl⟩
      intro hh
      cases hh
  | some c =>
      have hc : c.is_ready = false := h c rfl
      refine ⟨⟨"Not ready.", ?_⟩, ?_, ?_⟩
      · simp [client_register, hc]
      · simp [client_register, hc]
      · simp [load_netapp_uri, hc]

/-- Witness for C9 at a concrete not-ready checker. -/
theorem readiness_guards_block_witness :
    (∃ m, client_register (some { is_ready := false, url := "10.0.0.7" }) =
        GuardResult.raisedNotReady m) ∧
    client_register (some { is_ready := false, url := "10.0.0.7" }) ≠ GuardResult.proceeded ∧
    load_netapp_uri (some { is_ready := false, url := "10.0.0.7" }) =
      Except.error (PyExc.netAppNotReady "") :=
  readiness_guards_block (some { is_ready := false, url := "10.0.0.7" })
    (by intro c hc; cases hc; rfl)

/-- C3: delete_all_resources is a no-op raising no error when the token
or the plan handle is absent (whatever the transport would do), it
leaves the client state unchanged, and when the transport delivers
actual HTTP responses (of any status) two calls in a row both return
without error — the second call observably behaves as the first. -/
theorem delete_all_resources_idempotent (st : OrchState) :
    ((st.token = none ∨ st.action_plan_id = none) →
      ∀ tr, delete_all_resources st tr = (st, Except.ok ())) ∧
    (∀ tr, (delete_all_resources st tr).1 = st) ∧
    (∀ t1 t2, isResp t1 = true → isResp t2 = true →
      delete_all_resources st t1 = (st, Except.ok ()) ∧
      delete_all_resources ((delete_all_resources st t1).1) t2 = (st, Except.ok ())) := by
  obtain ⟨tok, pid, mw⟩ := st
  refine ⟨?_, ?_, ?_⟩
  · intro h tr
    cases tok <;> cases pid <;> cases mw <;> cases tr <;> first | rfl | simp_all
  · intro tr
    cases tok <;> cases pid <;> cases mw <;> cases tr <;> rfl
  · intro t1 t2 h1 h2
    cases t1 with
    | resp ok status =>
        cases t2 with
        | resp ok2 status2 => cases tok <;> cases pid <;> cases mw <;> exact ⟨rfl, rfl⟩
        | httpErr s => cases h2
        | connErr m => cases h2
    | httpErr s => cases h1
    | connErr m => cases h1

/-- Witness for C3: with a provisioned plan, a first delete answered 200
and a second answered 404 both return without error; and with no plan
handle the call is a no-op. -/
theorem delete_all_resources_idempotent_witness :
    delete_all_resources
      { token := some "tok", action_plan_id := some "plan1",
        middleware_info := some { address := "mw", user_id := "u", password := "p" } }
      (HttpOutcome.resp true 200) =
      ({ token := some "tok", action_plan_id := some "plan1",
         middleware_info := some { address := "mw", user_id := "u", password := "p" } },
       Except.ok ()) ∧
    delete_all_resources
      ((delete_all_resources
        { token := some "tok", action_plan_id := some "plan1",
          middleware_info := some { address := "mw", user_id := "u", password := "p" } }
        (HttpOutcome.resp true 200)).1)
      (HttpOutcome.resp false 404) =
      ({ token := some "tok", action_plan_id := some "plan1",
         middleware_info := some { address := "mw", user_id := "u", password := "p" } },
       Except.ok ()) ∧
    delete_all_resources
      { token := none, action_plan_id := none, middleware_info := none }
      (HttpOutcome.connErr "refused") =
      ({ token := none, action_plan_id := none, middleware_info := none }, Except.ok ()) := by
  have h := delete_all_resources_idempotent
    { token := some "tok", action_plan_id := some "plan1",
      middleware_info := some { address := "mw", user_id := "u", password := "p" } }
  have h2 := (h.2.2 (HttpOutcome.resp true 200) (HttpOutcome.resp false 404) rfl rfl)
  have h3 := delete_all_resources_idempotent
    { token := none, action_plan_id := none, middleware_info := none }
  exact ⟨h2.1, h2.2, (h3.1 (Or.inl rfl)) (HttpOutcome.connErr "refused")⟩

/-- Reference predicate: the conditions under which gateway_login
rejects a delivered response body, read off the source checks — an
`errors` key present, the `token` key absent, or the token value not a
non-empty string. -/
def loginRejects (fields : List (String × JsonVal)) : Bool :=
  (lookupField fields "errors").isSome ||
  (match lookupField fields "token" with
   | some (JsonVal.str t) => t.isEmpty
   | some _ => true
   | none => true)

/-- C4 counterexample: a connection-level network failure (such as
`requests.ConnectionError`) is not wrapped into `FailedToConnect` (the
AuthenticationFailed kind): only `requests.HTTPError` is named in the
except clause, so the transport error propagates as itself. The claim
says every network-level failure yields the AuthenticationFailed kind;
at this input that is false. -/
theorem gateway_login_conn_error_unwrapped :
    gateway_login (Except.error (NetError.connectionError "connection refused")) =
      Except.error (PyExc.netError (NetError.connectionError "connection refused")) ∧
    isFailedToConnect (PyExc.netError (NetError.connectionError "connection refused")) = false := by
  exact ⟨rfl, rfl⟩

/-- C4 (amended): gateway_login returns the token string for every
delivered response whose body carries no error payload and a non-empty
string token; it raises `FailedToConnect` exactly when the body carries
an error payload, lacks the token field, carries an empty or non-string
token, or the transport raises `requests.HTTPError`; any other
network-level failure propagates unwrapped instead of being converted
to the same error kind. -/
theorem gateway_login_characterisation (fields : List (String × JsonVal)) :
    (∀ t, loginRejects fields = false →
      lookupField fields "token" = some (JsonVal.str t) →
      gateway_login (Except.ok fields) = Except.ok t) ∧
    (loginRejects fields = true →
      ∃ m, gateway_login (Except.ok fields) = Except.error (PyExc.failedToConnect m)) ∧
    (∀ sc, gateway_login (Except.error (NetError.httpError sc)) =
      Except.error (PyExc.failedToConnect
        ("Could not login to the middleware gateway, status code: " ++ toString sc))) ∧
    (∀ m, gateway_login (Except.error (NetError.connectionError m)) =
      Except.error (PyExc.netError (NetError.connectionError m))) := by
  refine ⟨?_, ?_, fun sc => rfl, fun m => rfl⟩
  · intro t hrej htok
    unfold loginRejects at hrej
    cases herr : lookupField fields "errors" with
    | some e => simp [herr] at hrej
    | none =>
        rw [herr, htok] at hrej
        simp only [Option.isSome_none, Bool.false_or] at hrej
        simp [gateway_login, herr, htok, hrej]
  · intro hrej
    unfold loginRejects at hrej
    cases herr : lookupField fields "errors" with
    | some e => exact ⟨pyStr e, by simp [gateway_login, herr]⟩
    | none =>
        rw [herr] at hrej
        simp only [Option.isSome_none, Bool.false_or] at hrej
        cases htok : lookupField fields "token" with
        | none =>
            exact ⟨"Could not login to the middleware gateway, the response does not contain token",
              by simp [gateway_login, herr, htok]⟩
        | some v =>
            cases v with
            | str t =>
                rw [htok] at hrej
                simp at hrej
                exact ⟨"Invalid token.", by simp [gateway_login, herr, htok, hrej]⟩
            | num n => exact ⟨"Invalid token.", by simp [gateway_login, herr, htok]⟩
            | jbool b => exact ⟨"Invalid token.", by simp [gateway_login, herr, htok]⟩
            | null => exact ⟨"Invalid token.", by simp [gateway_login, herr, htok]⟩
            | arr xs => exact ⟨"Invalid token.", by simp [gateway_login, herr, htok]⟩
            | obj fs => exact ⟨"Invalid token.", by simp [gateway_login, herr, htok]⟩

/-- Witness for C4 (amended): the body with token "abc" yields "abc";
the body with an errors list raises FailedToConnect; an HTTPError with
status 401 is wrapped; a connection error propagates unwrapped. -/
theorem gateway_login_characterisation_witness :
    gateway_login (Except.ok [("token", JsonVal.str "abc")]) = Except.ok "abc" ∧
    (∃ m, gateway_login (Except.ok [("errors", JsonVal.arr [JsonVal.str "bad password"])]) =
      Except.error (PyExc.failedToConnect m)) ∧
    gateway_login (Except.error (NetError.httpError 401)) =
      Except.error (PyExc.failedToConnect
        ("Could not login to the middleware gateway, status code: " ++ toString 401)) ∧
    gateway_login (Except.error (NetError.connectionError "timed out")) =
      Except.error (PyExc.netError (NetError.connectionError "timed out")) := by
  refine ⟨?_, ?_, ?_, ?_⟩
  · exact (gateway_login_characterisation [("token", JsonVal.str "abc")]).1 "abc" rfl rfl
  · exact (gateway_login_characterisation
      [("errors", JsonVal.arr [JsonVal.str "bad password"])]).2.1 rfl
  · exact (gateway_login_characterisation []).2.2.1 401
  · exact (gateway_login_characterisation []).2.2.2 "timed out"

/-- C5 counterexample: a response whose statusCode is 404 — a 4xx
application error — but which carries an ActionPlanId is not rejected:
gateway_get_plan returns the plan id, because the source tests only
`statusCode == 500 or statusCode == 400`. The claim requires failure
with the PlanRequestFailed kind for any 4xx/5xx status; at this input
that is false. -/
theorem gateway_get_plan_404_returns_plan :
    gateway_get_plan (Except.ok (JsonVal.obj
      [("statusCode", JsonVal.num 404), ("ActionPlanId", JsonVal.str "p1")])) =
      Except.ok "p1" := by
  rfl

/-- C5 (amended): gateway_get_plan returns the plan id for every dict
response containing the ActionPlanId field whose statusCode (if any) is
neither 500 nor 400; it fails with `FailedToConnect` (the
PlanRequestFailed kind) when statusCode equals 500 or equals 400 — and
only those two status values — carrying the interpolated message, or
when the response lacks the ActionPlanId field, or when the response is
not a dict. -/
theorem gateway_get_plan_characterisation :
    (∀ fields sc msg, lookupField fields "statusCode" = some sc →
      (jsonEqInt sc 500 || jsonEqInt sc 400) = true →
      lookupField fields "message" = some msg →
      gateway_get_plan (Except.ok (JsonVal.obj fields)) =
        Except.error (PyExc.failedToConnect ("response " ++ pyStr sc ++ ": " ++ pyStr msg))) ∧
    (∀ fields v,
      (∀ sc, lookupField fields "statusCode" = some sc →
        (jsonEqInt sc 500 || jsonEqInt sc 400) = false) →
      lookupField fields "ActionPlanId" = some v →
      gateway_get_plan (Except.ok (JsonVal.obj fields)) = Except.ok (pyStr v)) ∧
    (∀ fields,
      (∀ sc, lookupField fields "statusCode" = some sc →
        (jsonEqInt sc 500 || jsonEqInt sc 400) = false) →
      lookupField fields "ActionPlanId" = none →
      gateway_get_plan (Except.ok (JsonVal.obj fields)) =
        Except.error (PyExc.failedToConnect "Could not get the plan: ActionPlanId")) ∧
    (∀ s, gateway_get_plan (Except.ok (JsonVal.str s)) =
      Except.error (PyExc.failedToConnect "Invalid response.")) := by
  refine ⟨?_, ?_, ?_, fun s => rfl⟩
  · intro fields sc msg hsc heq hmsg
    unfold gateway_get_plan
    simp [hsc, heq, hmsg]
  · intro fields v hsc hpid
    unfold gateway_get_plan
    cases h : lookupField fields "statusCode" with
    | none => simp [h, planIdOf, hpid]
    | some sc => simp [h, hsc sc h, planIdOf, hpid]
  · intro fields hsc hpid
    unfold gateway_get_plan
    cases h : lookupField fields "statusCode" with
    | none => simp [h, planIdOf, hpid]
    | some sc => simp [h, hsc sc h, planIdOf, hpid]

/-- Witness for C5 (amended): the scenario bodies of the spec — an
ActionPlanId of "p1" is returned; a statusCode 500 with message "x"
raises FailedToConnect("response 500: x"); a missing ActionPlanId
raises; a non-dict body raises. -/
theorem gateway_get_plan_characterisation_witness :
    gateway_get_plan (Except.ok (JsonVal.obj [("ActionPlanId", JsonVal.str "p1")])) =
      Except.ok "p1" ∧
    gateway_get_plan (Except.ok (JsonVal.obj
      [("statusCode", JsonVal.num 500), ("message", JsonVal.str "x")])) =
      Except.error (PyExc.failedToConnect
        ("response " ++ pyStr (JsonVal.num 500) ++ ": " ++ pyStr (JsonVal.str "x"))) ∧
    gateway_get_plan (Except.ok (JsonVal.obj [("status", JsonVal.str "ok")])) =
      Except.error (PyExc.failedToConnect "Could not get the plan: ActionPlanId") ∧
    gateway_get_plan (Except.ok (JsonVal.str "oops")) =
      Except.error (PyExc.failedToConnect "Invalid response.") := by
  refine ⟨?_, ?_, ?_, ?_⟩
  · exact (gateway_get_plan_characterisation).2.1 [("ActionPlanId", JsonVal.str "p1")]
      (JsonVal.str "p1") (by intro sc h; cases h) rfl
  · exact (gateway_get_plan_characterisation).1
      [("statusCode", JsonVal.num 500), ("message", JsonVal.str "x")]
      (JsonVal.num 500) (JsonVal.str "x") rfl rfl rfl
  · exact (gateway_get_plan_characterisation).2.2.1 [("status", JsonVal.str "ok")]
      (by intro sc h; cases h) rfl
  · exact (gateway_get_plan_characterisation).2.2.2 "oops"

/-- Helper: with wait_until_available true and a non-positive timeout,
the connect loop never raises — an all-failure prefix of attempt
outcomes is consumed entirely, one one-second sleep per failure, and
the loop is still retrying. -/
theorem connectLoop_nonpos_timeout_never_fails (wait_timeout : Int) (start : Int)
    (ht : wait_timeout ≤ 0) :
    ∀ (conn : List (Bool × Int)) (n : Nat), (∀ p ∈ conn, p.1 = false) →
      connectLoop true wait_timeout start conn n = ConnectResult.running (n + conn.length) := by
  intro conn
  induction conn with
  | nil => intro n _; simp [connectLoop]
  | cons p rest ih =>
      intro n hall
      obtain ⟨succ, t⟩ := p
      have hp : succ = false := hall (succ, t) (List.mem_cons_self _ _)
      subst hp
      have hnot : ¬ (0 < wait_timeout) := by omega
      simp only [connectLoop, Bool.false_eq_true, if_false, Bool.not_true, decide_eq_true_eq]
      rw [if_neg (by simp [hnot])]
      rw [ih (n + 1) (fun q hq => hall q (List.mem_cons_of_mem _ hq))]
      congr 1
      simp [List.length_cons]
      omega

/-- C6: the connect policy of NetAppClientBase.register. First, when the
first physical attempt fails and wait_until_available is false, the
call fails immediately — one attempt, no retry — and base_register
converts it to the `FailedToConnect` kind. Second, with
wait_until_available true and a non-positive (absent) timeout the loop
retries indefinitely: it never raises on any all-failure prefix.
Third, with wait_until_available true and a positive timeout, a failed
attempt observed after the timeout has elapsed raises immediately.
Fourth, the scenario: two failed attempts followed by a success, all
checks within timeout 5, ends connected after three attempts having
slept once per failed attempt. -/
theorem connect_retry_policy :
    (∀ (wait_timeout start t : Int) (rest : List (Bool × Int)),
      connectLoop false wait_timeout start ((false, t) :: rest) 0 = ConnectResult.failed 1 ∧
      base_register false wait_timeout start ((false, t) :: rest) none (true, "") =
        RegisterResult.done [] (Except.error (PyExc.failedToConnect "ConnectionError"))) ∧
    (∀ (wait_timeout start : Int), wait_timeout ≤ 0 →
      ∀ (conn : List (Bool × Int)), (∀ p ∈ conn, p.1 = false) →
        connectLoop true wait_timeout start conn 0 = ConnectResult.running conn.length) ∧
    (∀ (wait_timeout start t : Int) (rest : List (Bool × Int)),
      0 < wait_timeout → start + wait_timeout < t →
      connectLoop true wait_timeout start ((false, t) :: rest) 0 = ConnectResult.failed 1) ∧
    (∀ (start t1 t2 t3 : Int) (rest : List (Bool × Int)),
      ¬ start + 5 < t1 → ¬ start + 5 < t2 →
      connectLoop true 5 start ((false, t1) :: (false, t2) :: (true, t3) :: rest) 0 =
        ConnectResult.connected 3 2) := by
  refine ⟨?_, ?_, ?_, ?_⟩
  · intro wait_timeout start t rest
    constructor
    · simp [connectLoop]
    · simp [base_register, connectLoop]
  · intro wait_timeout start ht conn hall
    have h := connectLoop_nonpos_timeout_never_fails wait_timeout start ht conn 0 hall
    simpa using h
  · intro wait_timeout start t rest h1 h2
    simp [connectLoop, h1, h2]
  · intro start t1 t2 t3 rest h1 h2
    simp [connectLoop, h1, h2]

/-- Witness for C6: with a non-waiting call the first failure raises at
once; with waiting and timeout -1 three failures leave the loop
retrying; with waiting and timeout 5 a failure observed at time 9 past
start 1 raises; and the spec scenario — failures observed at times 1
and 2, success at time 3, timeout 5 from start 0 — connects after three
attempts and two sleeps. -/
theorem connect_retry_policy_witness :
    (connectLoop false (-1) 0 [(false, 1)] 0 = ConnectResult.failed 1 ∧
      base_register false (-1) 0 [(false, 1)] none (true, "") =
        RegisterResult.done [] (Except.error (PyExc.failedToConnect "ConnectionError"))) ∧
    connectLoop true (-1) 0 [(false, 1), (false, 2), (false, 3)] 0 = ConnectResult.running 3 ∧
    connectLoop true 5 1 [(false, 9)] 0 = ConnectResult.failed 1 ∧
    connectLoop true 5 0 [(false, 1), (false, 2), (true, 3)] 0 = ConnectResult.connected 3 2 := by
  refine ⟨connect_retry_policy.1 (-1) 0 1 [], ?_, ?_, ?_⟩
  · exact connect_retry_policy.2.1 (-1) 0 (by omega) [(false, 1), (false, 2), (false, 3)]
      (by intro p hp; fin_cases hp <;> rfl)
  · exact connect_retry_policy.2.2.1 5 1 9 [] (by omega) (by omega)
  · exact connect_retry_policy.2.2.2 0 1 2 3 [] (by omega) (by omega)

/-- C7: once the connect loop has succeeded, NetAppClientBase.register
sends exactly one control command — of type INIT, with clear_queue
false, carrying the caller-supplied args — and blocks for its single
correlated result; it returns normally when the result's success flag
is true and raises `FailedToInitialize` carrying the returned message
when the flag is false. -/
theorem base_register_init_handshake (wait_until_available : Bool)
    (wait_timeout start : Int) (conn : List (Bool × Int))
    (args : Option (List (String × JsonVal))) (initRes : Bool × String) (n s : Nat)
    (hc : connectLoop wait_until_available wait_timeout start conn 0 =
      ConnectResult.connected n s) :
    base_register wait_until_available wait_timeout start conn args initRes =
      RegisterResult.done [{ cmd_type := ControlCmdType.INIT, clear_queue := false, data := args }]
        (if initRes.1 then Except.ok ()
         else Except.error (PyExc.failedToInit
           ("Failed to initialize the network application: " ++ initRes.2))) := by
  unfold base_register
  rw [hc]
  cases h : initRes.1 <;> simp [h]

/-- Witness for C7: a first-attempt success followed by a failing INIT
result raises FailedToInitialize with the returned message; the same
connect with a succeeding INIT returns normally. -/
theorem base_register_init_handshake_witness :
    base_register false (-1) 0 [(true, 1)] (some [("arg", JsonVal.num 7)]) (false, "no workers") =
      RegisterResult.done
        [{ cmd_type := ControlCmdType.INIT, clear_queue := false,
           data := some [("arg", JsonVal.num 7)] }]
        (Except.error (PyExc.failedToInit
          ("Failed to initialize the network application: " ++ "no workers"))) ∧
    base_register false (-1) 0 [(true, 1)] none (true, "ok") =
      RegisterResult.done
        [{ cmd_type := ControlCmdType.INIT, clear_queue := false, data := none }]
        (Except.ok ()) := by
  constructor
  · exact base_register_init_handshake false (-1) 0 [(true, 1)]
      (some [("arg", JsonVal.num 7)]) (false, "no workers") 1 0 rfl
  · exact base_register_init_handshake false (-1) 0 [(true, 1)] none (true, "ok") 1 0 rfl

/-- C1 counterexample: in WAIT_AND_REGISTER mode a registration INIT
failure raises `FailedToInitialize`, a class not named in the
`except (FailedToConnect, NetAppNotReady)` clause of run_task, so the
exception propagates to the caller with no deleteResources event in the
trace — delete_all_resources is not invoked, contradicting the claim
at this input. -/
theorem run_task_init_failure_skips_cleanup :
    run_task RunTaskMode.WAIT_AND_REGISTER
      { planOutcome := Except.ok "p1", waitOutcome := Except.ok (),
        loadUriOutcome := Except.ok (),
        registerOutcome := Except.error (PyExc.failedToInit
          "Failed to initialize the network application: no workers"),
        deleteOutcome := Except.ok () } =
      ([RunEvent.getPlan, RunEvent.startChecker, RunEvent.waitReady,
        RunEvent.loadUri, RunEvent.registerCall],
       Except.error (PyExc.failedToInit
         "Failed to initialize the network application: no workers")) ∧
    RunEvent.deleteResources ∉
      [RunEvent.getPlan, RunEvent.startChecker, RunEvent.waitReady,
       RunEvent.loadUri, RunEvent.registerCall] := by
  exact ⟨rfl, by decide⟩

/-- C1 (amended): for every run_task invocation in which an exception of
a kind named in the except clause — `FailedToConnect` or
`NetAppNotReady` — is raised at any stage after the plan request,
delete_all_resources is invoked (the deleteResources event ends the
trace) before the exception is re-raised to the caller; an INIT
failure (`FailedToInitialize`) is not caught and propagates without
the compensating deletion. -/
theorem run_task_cleanup_on_caught_error (mode : RunTaskMode) (o : StageOutcomes)
    (tr : List RunEvent) (e : PyExc)
    (hb : tryBody mode o = (tr, Except.error e)) (hc : isCaught e = true) :
    (run_task mode o).1 = tr ++ [RunEvent.deleteResources] ∧
    (o.deleteOutcome = Except.ok () →
      run_task mode o = (tr ++ [RunEvent.deleteResources], Except.error e)) := by
  unfold run_task
  rw [hb]
  simp only [hc, if_true]
  cases hd : o.deleteOutcome with
  | ok u => exact ⟨rfl, fun _ => rfl⟩
  | error ce =>
      refine ⟨rfl, fun hcontra => ?_⟩
      cases hcontra

/-- Witness for C1 (amended): a plan request that raises
FailedToConnect triggers the compensating deletion and the caller
receives that original error. -/
theorem run_task_cleanup_on_caught_error_witness :
    (run_task RunTaskMode.WAIT_AND_REGISTER
      { planOutcome := Except.error (PyExc.failedToConnect "response 500: x"),
        waitOutcome := Except.ok (), loadUriOutcome := Except.ok (),
        registerOutcome := Except.ok (), deleteOutcome := Except.ok () }).1 =
      [RunEvent.getPlan] ++ [RunEvent.deleteResources] ∧
    run_task RunTaskMode.WAIT_AND_REGISTER
      { planOutcome := Except.error (PyExc.failedToConnect "response 500: x"),
        waitOutcome := Except.ok (), loadUriOutcome := Except.ok (),
        registerOutcome := Except.ok (), deleteOutcome := Except.ok () } =
      ([RunEvent.getPlan] ++ [RunEvent.deleteResources],
       Except.error (PyExc.failedToConnect "response 500: x")) := by
  have h := run_task_cleanup_on_caught_error RunTaskMode.WAIT_AND_REGISTER
    { planOutcome := Except.error (PyExc.failedToConnect "response 500: x"),
      waitOutcome := Except.ok (), loadUriOutcome := Except.ok (),
      registerOutcome := Except.ok (), deleteOutcome := Except.ok () }
    [RunEvent.getPlan] (PyExc.failedToConnect "response 500: x") rfl rfl
  exact ⟨h.1, h.2 rfl⟩

/-- C2 counterexample: a readiness failure (NetAppNotReady) triggers the
compensating deletion; the DELETE transport raises an HTTPError, so
delete_all_resources raises `FailedToConnect` inside the except block,
and that cleanup error — not the original NetAppNotReady — is what
run_task propagates to the caller, contradicting the claim at this
input. -/
theorem run_task_cleanup_error_shadows_original :
    run_task RunTaskMode.WAIT
      { planOutcome := Except.ok "p1",
        waitOutcome := Except.error (PyExc.netAppNotReady "Not ready."),
        loadUriOutcome := Except.ok (), registerOutcome := Except.ok (),
        deleteOutcome := (delete_all_resources
          { token := some "tok", action_plan_id := some "p1",
            middleware_info := some { address := "mw", user_id := "u", password := "p" } }
          (HttpOutcome.httpErr 500)).2 } =
      ([RunEvent.getPlan, RunEvent.startChecker, RunEvent.waitReady, RunEvent.deleteResources],
       Except.error (PyExc.failedToConnect
         "Error, could not get delete the resource, revisit the log files for more details.")) ∧
    PyExc.failedToConnect
        "Error, could not get delete the resource, revisit the log files for more details." ≠
      PyExc.netAppNotReady "Not ready." := by
  exact ⟨rfl, by decide⟩

/-- C2 (amended): when an error caught by run_task triggers the
compensating deletion, the caller receives the original error exactly
when delete_all_resources returns normally; when the cleanup itself
raises, the cleanup exception propagates in place of the original. -/
theorem run_task_original_error_iff_cleanup_ok (mode : RunTaskMode) (o : StageOutcomes)
    (tr : List RunEvent) (e : PyExc)
    (hb : tryBody mode o = (tr, Except.error e)) (hc : isCaught e = true) :
    (o.deleteOutcome = Except.ok () → (run_task mode o).2 = Except.error e) ∧
    (∀ ce, o.deleteOutcome = Except.error ce → (run_task mode o).2 = Except.error ce) := by
  unfold run_task
  rw [hb]
  simp only [hc, if_true]
  cases hd : o.deleteOutcome with
  | ok u => exact ⟨fun _ => rfl, fun ce hce => by cases hce⟩
  | error ce =>
      refine ⟨fun hcontra => (by cases hcontra), fun ce2 hce => ?_⟩
      cases hce
      rfl

/-- Witness for C2 (amended): with a failing plan request, a cleanup
that returns normally leaves the original error, and a cleanup raising
FailedToConnect replaces it. -/
theorem run_task_original_error_iff_cleanup_ok_witness :
    (run_task RunTaskMode.WAIT
      { planOutcome := Except.error (PyExc.failedToConnect "response 400: bad"),
        waitOutcome := Except.ok (), loadUriOutcome := Except.ok (),
        registerOutcome := Except.ok (), deleteOutcome := Except.ok () }).2 =
      Except.error (PyExc.failedToConnect "response 400: bad") ∧
    (run_task RunTaskMode.WAIT
      { planOutcome := Except.error (PyExc.failedToConnect "response 400: bad"),
        waitOutcome := Except.ok (), loadUriOutcome := Except.ok (),
        registerOutcome := Except.ok (),
        deleteOutcome := Except.error (PyExc.failedToConnect
          "Error, could not get delete the resource, revisit the log files for more details.") }).2 =
      Except.error (PyExc.failedToConnect
        "Error, could not get delete the resource, revisit the log files for more details.") := by
  constructor
  · exact (run_task_original_error_iff_cleanup_ok RunTaskMode.WAIT
      { planOutcome := Except.error (PyExc.failedToConnect "response 400: bad"),
        waitOutcome := Except.ok (), loadUriOutcome := Except.ok (),
        registerOutcome := Except.ok (), deleteOutcome := Except.ok () }
      [RunEvent.getPlan] (PyExc.failedToConnect "response 400: bad") rfl rfl).1 rfl
  · exact (run_task_original_error_iff_cleanup_ok RunTaskMode.WAIT
      { planOutcome := Except.error (PyExc.failedToConnect "response 400: bad"),
        waitOutcome := Except.ok (), loadUriOutcome := Except.ok (),
        registerOutcome := Except.ok (),
        deleteOutcome := Except.error (PyExc.failedToConnect
          "Error, could not get delete the resource, revisit the log files for more details.") }
      [RunEvent.getPlan] (PyExc.failedToConnect "response 400: bad") rfl rfl).2
      (PyExc.failedToConnect
        "Error, could not get delete the resource, revisit the log files for more details.") rfl

/-- C8: on the success path the three run modes form a strict prefix
relation. DO_NOTHING performs the plan request and monitor start only;
WAIT additionally performs the blocking readiness wait together with
the endpoint retrieval load_netapp_uri that observes it; and
WAIT_AND_REGISTER additionally performs the register call (the
connect-and-register handshake). The traces are exactly these lists, so
no mode performs any step beyond its prefix, and each successive trace
strictly extends the previous one. -/
theorem run_modes_strict_prefix (o : StageOutcomes) (pid : String)
    (hp : o.planOutcome = Except.ok pid) (hpe : pid.isEmpty = false)
    (hw : o.waitOutcome = Except.ok ()) (hl : o.loadUriOutcome = Except.ok ())
    (hr : o.registerOutcome = Except.ok ()) :
    run_task RunTaskMode.DO_NOTHING o =
      ([RunEvent.getPlan, RunEvent.startChecker], Except.ok ()) ∧
    run_task RunTaskMode.WAIT o =
      ([RunEvent.getPlan, RunEvent.startChecker] ++ [RunEvent.waitReady, RunEvent.loadUri],
       Except.ok ()) ∧
    run_task RunTaskMode.WAIT_AND_REGISTER o =
      (([RunEvent.getPlan, RunEvent.startChecker] ++ [RunEvent.waitReady, RunEvent.loadUri]) ++
        [RunEvent.registerCall], Except.ok ()) ∧
    ([RunEvent.getPlan, RunEvent.startChecker] : List RunEvent) ≠
      [RunEvent.getPlan, RunEvent.startChecker] ++ [RunEvent.waitReady, RunEvent.loadUri] ∧
    ([RunEvent.getPlan, RunEvent.startChecker] ++ [RunEvent.waitReady, RunEvent.loadUri] :
        List RunEvent) ≠
      ([RunEvent.getPlan, RunEvent.startChecker] ++ [RunEvent.waitReady, RunEvent.loadUri]) ++
        [RunEvent.registerCall] := by
  refine ⟨?_, ?_, ?_, by decide, by decide⟩ <;>
    simp [run_task, tryBody, hp, hpe, hw, hl, hr]

/-- Witness for C8 at concrete all-success stage outcomes. -/
theorem run_modes_strict_prefix_witness :
    run_task RunTaskMode.DO_NOTHING
      { planOutcome := Except.ok "p1", waitOutcome := Except.ok (),
        loadUriOutcome := Except.ok (), registerOutcome := Except.ok (),
        deleteOutcome := Except.ok () } =
      ([RunEvent.getPlan, RunEvent.startChecker], Except.ok ()) ∧
    run_task RunTaskMode.WAIT
      { planOutcome := Except.ok "p1", waitOutcome := Except.ok (),
        loadUriOutcome := Except.ok (), registerOutcome := Except.ok (),
        deleteOutcome := Except.ok () } =
      ([RunEvent.getPlan, RunEvent.startChecker] ++ [RunEvent.waitReady, RunEvent.loadUri],
       Except.ok ()) ∧
    run_task RunTaskMode.WAIT_AND_REGISTER
      { planOutcome := Except.ok "p1", waitOutcome := Except.ok (),
        loadUriOutcome := Except.ok (), registerOutcome := Except.ok (),
        deleteOutcome := Except.ok () } =
      (([RunEvent.getPlan, RunEvent.startChecker] ++ [RunEvent.waitReady, RunEvent.loadUri]) ++
        [RunEvent.registerCall], Except.ok ()) := by
  have h := run_modes_strict_prefix
    { planOutcome := Except.ok "p1", waitOutcome := Except.ok (),
      loadUriOutcome := Except.ok (), registerOutcome := Except.ok (),
      deleteOutcome := Except.ok () } "p1" rfl rfl rfl rfl rfl
  exact ⟨h.1, h.2.1, h.2.2.1⟩
